import Mathlib

/-!
Shallow embedding of the data ingestion/normalization layer of the
2dir-insight repository (`src/core/data_loader.py`, class `DataLoader`).

Modelling conventions:
* Numeric values (spectrum entries, axis coordinates) are rationals `ℚ`;
  the Python code works with IEEE doubles, but every claim under study is
  about structure, dispatch, error behaviour and exact round-trips, so the
  exact-arithmetic model is faithful for them.
* A numpy `ndarray` of rank at most 2 is `NDArray`; the constructor `d2`
  carries the column count explicitly so that the shape `(n, c)` of an
  `n × c` matrix is represented even when `n = 0`.  No operation of the
  loader under study produces an array of rank three or more.
* The filesystem is a `World`: an association list from paths to file
  contents, plus the stream of values produced by `np.random.random`
  (modelled as a function `ℕ → ℕ → ℚ`, indexed by row and column).
* Python exceptions are the inductive `Err`; each constructor corresponds
  to one raise site or library exception of the source (comments inline).
-/

set_option autoImplicit false

namespace TwoDir

/-- Metadata values: Python scalars and strings, plus the shape tuple the
CSV loader stores under `data_shape`. -/
inductive Value where
  | num (q : ℚ)
  | str (s : String)
  | pair (a b : ℕ)
  deriving DecidableEq, Repr

/-- A Python `dict` used as metadata: an association list from string
keys to values (keys unique in any dict the code builds). -/
abbrev Metadata := List (String × Value)

/-- Numpy array of rank 0, 1 or 2.  `d2 c rows` is an
`rows.length × c` matrix; every row of a well-formed matrix has length
`c`. -/
inductive NDArray where
  | d0 (x : ℚ)
  | d1 (xs : List ℚ)
  | d2 (c : ℕ) (rows : List (List ℚ))
  deriving DecidableEq, Repr

/-- Shape of an array, as `ndarray.shape` (a tuple of dimensions). -/
def npShape : NDArray → List ℕ
  | .d0 _ => []
  | .d1 xs => [xs.length]
  | .d2 c rows => [rows.length, c]

/-- All elements of an array, row-major, as used by the numpy reductions
`np.min`, `np.max`, `np.mean`, `np.std`. -/
def toElems : NDArray → List ℚ
  | .d0 x => [x]
  | .d1 xs => xs
  | .d2 _ rows => rows.flatten

/-- The dictionary every loader of `DataLoader` returns: the canonical
record of the spec (`spectrum`, the two frequency axes, `metadata`). -/
structure Record where
  spectrum : NDArray
  frequencies_f1 : NDArray
  frequencies_f2 : NDArray
  metadata : Metadata
  deriving DecidableEq, Repr

/-- A path, as the loader uses `pathlib.Path`: a stem plus the extension
returned by `Path.suffix` (empty or starting with a dot). -/
structure FPath where
  stem : String
  ext : String
  deriving DecidableEq, Repr

/-- `str(path)`, as interpolated into metadata and error messages. -/
def pathStr (p : FPath) : String := p.stem ++ p.ext

/-- `Path.with_suffix`: replace the extension. -/
def withSuffix (p : FPath) (e : String) : FPath := ⟨p.stem, e⟩

/-- Contents of an HDF5 container: named datasets plus file-level
attributes. -/
structure H5File where
  datasets : List (String × NDArray)
  attrs : Metadata
  deriving DecidableEq, Repr

/-- Contents of a CSV file as `pandas` reads it with `index_col=0`:
a header of column labels and rows of (index label, cells).  Labels are
carried as numbers; the axes the encoder writes are numeric, and the
decoder parses them back with `astype(float)`. -/
structure CSVFile where
  header : List ℚ
  rows : List (ℚ × List ℚ)
  deriving DecidableEq, Repr

/-- A file on disk, tagged by what its bytes parse as. `text` is a
whitespace-delimited numeric matrix (one list per line); `json` is a
serialized metadata dict; `raw` is any content none of the text parsers
accept (e.g. an instrument-native acquisition file). -/
inductive FileContent where
  | h5 (f : H5File)
  | text (rows : List (List ℚ))
  | csv (f : CSVFile)
  | json (m : Metadata)
  | raw
  deriving DecidableEq, Repr

/-- The world a load/save call runs against: the filesystem, plus the
values `np.random.random((512, 1024))` would produce (row, column
indexed), making the nondeterminism of the NMR stub explicit. -/
structure World where
  files : List (FPath × FileContent)
  rand : ℕ → ℕ → ℚ

/-- Python exceptions raised by the loader, one constructor per raise
site / library exception:
* `fileNotFoundError` — `raise FileNotFoundError` in `load_data`;
* `unsupportedFormat` — `raise ValueError("サポートされていないファイル形式…")` in `load_data`;
* `textLoadFailed` — `raise ValueError("テキストファイルの読み込みに失敗…")` in `_load_text_format`;
* `csvLoadFailed` — `raise ValueError("CSVファイルの読み込みに失敗…")` in `_load_csv`;
* `keyError` — `KeyError` from `h5py` when `f[name]` is absent;
* `osError` — `OSError` from `h5py.File` on an unreadable container;
* `notImplementedError` — the trailing `raise NotImplementedError` of `load_data`;
* `emptyArrayReduce` — `ValueError` from a numpy reduction over an empty array;
* `savetxtRankError` — `ValueError` from `np.savetxt` on an array that is not 1D/2D;
* `dataFrameError` — `ValueError` from `pd.DataFrame` when index/columns lengths mismatch. -/
inductive Err where
  | fileNotFoundError (msg : String)
  | unsupportedFormat (ext : String)
  | textLoadFailed (msg : String)
  | csvLoadFailed (msg : String)
  | keyError (key : String)
  | osError (msg : String)
  | notImplementedError (tag : String)
  | emptyArrayReduce
  | savetxtRankError
  | dataFrameError
  deriving DecidableEq, Repr

instance instDecEqExcept {ε α : Type} [DecidableEq ε] [DecidableEq α] :
    DecidableEq (Except ε α) := fun x y =>
  match x, y with
  | .ok a, .ok b =>
    if h : a = b then .isTrue (by rw [h])
    else .isFalse (fun hh => h (Except.ok.inj hh))
  | .error e, .error f =>
    if h : e = f then .isTrue (by rw [h])
    else .isFalse (fun hh => h (Except.error.inj hh))
  | .ok _, .error _ => .isFalse (fun hh => Except.noConfusion hh)
  | .error _, .ok _ => .isFalse (fun hh => Except.noConfusion hh)

/-- Association-list lookup for the filesystem. -/
def lookupFile : List (FPath × FileContent) → FPath → Option FileContent
  | [], _ => none
  | (q, c) :: t, p => if q = p then some c else lookupFile t p

/-- `Path.exists()` against the world. -/
def fileExists (w : World) (p : FPath) : Bool := (lookupFile w.files p).isSome

/-- Association-list lookup for HDF5 datasets (`f[name]`). -/
def dsLookup : List (String × NDArray) → String → Option NDArray
  | [], _ => none
  | (k, v) :: t, key => if k = key then some v else dsLookup t key

/-- Association-list lookup for metadata keys. -/
def metaLookup : Metadata → String → Option Value
  | [], _ => none
  | (k, v) :: t, key => if k = key then some v else metaLookup t key

/-- `np.linspace(a, b, num)` over exact arithmetic. -/
def linspace (a b : ℚ) (num : ℕ) : List ℚ :=
  if num = 0 then []
  else if num = 1 then [a]
  else (List.range num).map (fun (i : ℕ) => a + (b - a) * (i : ℚ) / ((num : ℚ) - 1))

/-- `self.supported_formats` of `DataLoader.__init__`. -/
def supported_formats : List String := [".nmr", ".fid", ".dat", ".txt", ".csv", ".h5"]

/-- `f[name]` on an open HDF5 file: the dataset, or `KeyError`. -/
def h5Get (f : H5File) (key : String) : Except Err NDArray :=
  match dsLookup f.datasets key with
  | some a => .ok a
  | none => .error (.keyError key)

/-- Body of `DataLoader._load_hdf5` once the container is open: read the
three datasets verbatim (no shape or rank validation in the source) and
take the attribute set as metadata. -/
def loadHdf5File (f : H5File) : Except Err Record :=
  match h5Get f "spectrum" with
  | .error e => .error e
  | .ok s =>
    match h5Get f "frequencies_f1" with
    | .error e => .error e
    | .ok a1 =>
      match h5Get f "frequencies_f2" with
      | .error e => .error e
      | .ok a2 => .ok ⟨s, a1, a2, f.attrs⟩

/-- `DataLoader._load_hdf5`: `h5py.File(path, "r")` raises `OSError` when
the bytes are not an HDF5 container; otherwise read the datasets. -/
def loadHdf5 (w : World) (p : FPath) : Except Err Record :=
  match lookupFile w.files p with
  | some (.h5 f) => loadHdf5File f
  | some _ => .error (.osError "unable to open file")
  | none => .error (.osError "unable to open file")

/-- `np.loadtxt`: parse a whitespace-delimited numeric matrix.  Numpy
returns the array with the minimum number of dimensions (`ndmin=0`): a
single value gives a rank-0 array, a single row or a single column gives
a rank-1 array, otherwise rank 2.  Ragged rows raise `ValueError`
(surfaced here already wrapped, since the caller catches and wraps every
failure).  An empty file yields an empty rank-1 array. -/
def loadtxtArr (rows : List (List ℚ)) : Except Err NDArray :=
  match rows with
  | [] => .ok (.d1 [])
  | r0 :: rest =>
    if rest.all (fun row => row.length == r0.length) then
      if rest.length = 0 then
        if r0.length = 1 then .ok (.d0 (r0.headD 0)) else .ok (.d1 r0)
      else if r0.length = 1 then
        .ok (.d1 ((r0 :: rest).map (fun row => row.headD 0)))
      else .ok (.d2 r0.length (r0 :: rest))
    else .error (.textLoadFailed "ragged rows")

/-- Tail of `DataLoader._load_text_format`: unpack
`f1_points, f2_points = data_matrix.shape` (raises unless the array is
rank 2, caught and wrapped by the surrounding `except`) and synthesize
the default `np.linspace(0, 12, n)` axes. -/
def finishText (arr : NDArray) (meta : Metadata) : Except Err Record :=
  match arr with
  | .d2 c rows =>
      .ok ⟨.d2 c rows, .d1 (linspace 0 12 rows.length),
           .d1 (linspace 0 12 c), meta⟩
  | _ => .error (.textLoadFailed "shape unpack")

/-- `DataLoader._load_text_format`: `np.loadtxt` the file, read the
`.json` sidecar if it exists, then unpack the shape.  Every inner
failure is caught and re-raised as `ValueError` (`textLoadFailed`). -/
def loadTextFormat (w : World) (p : FPath) : Except Err Record :=
  match lookupFile w.files p with
  | some (.text rows) =>
    (match loadtxtArr rows with
     | .error e => .error e
     | .ok arr =>
       match lookupFile w.files (withSuffix p ".json") with
       | some (.json meta) => finishText arr meta
       | some _ => .error (.textLoadFailed "metadata json parse")
       | none => finishText arr [])
  | some _ => .error (.textLoadFailed "loadtxt parse")
  | none => .error (.textLoadFailed "missing file")

/-- Whether a rational occurs in a list (by exact equality; distinct
rationals always print as distinct labels, so label equality coincides
with value equality). -/
def memQ (x : ℚ) : List ℚ → Bool
  | [] => false
  | y :: t => if x = y then true else memQ x t

/-- Whether a list of rationals contains a duplicate. -/
def dupQ : List ℚ → Bool
  | [] => false
  | x :: t => memQ x t || dupQ t

/-- `DataLoader._load_csv`: `pd.read_csv(path, index_col=0)`; the index
becomes `frequencies_f1`, the header becomes `frequencies_f2`, the cells
become the spectrum; the metadata is freshly built from the three derived
fields.  Inner failures are caught and wrapped as `ValueError`
(`csvLoadFailed`): non-CSV bytes and ragged rows fail in `read_csv`, and
a header with duplicate column labels is silently mangled by pandas
(`"x"`, `"x.1"`), after which `df.columns.values.astype(float)` raises —
duplicate index labels, by contrast, are not mangled and parse fine. -/
def loadCsv (w : World) (p : FPath) : Except Err Record :=
  match lookupFile w.files p with
  | some (.csv f) =>
    if f.rows.all (fun row => row.2.length == f.header.length) then
      if dupQ f.header then
        .error (.csvLoadFailed "astype float on mangled duplicate column label")
      else
        .ok ⟨.d2 f.header.length (f.rows.map Prod.snd),
             .d1 (f.rows.map Prod.fst),
             .d1 f.header,
             [("file_format", .str "csv"),
              ("original_file", .str (pathStr p)),
              ("data_shape", .pair f.rows.length f.header.length)]⟩
    else .error (.csvLoadFailed "ragged rows")
  | some _ => .error (.csvLoadFailed "parse")
  | none => .error (.csvLoadFailed "missing file")

/-- `DataLoader._load_nmr_format`: the placeholder implementation never
reads the file; it fabricates a 512 × 1024 spectrum from
`np.random.random` and default axes, with a fixed metadata dict.  It
raises nothing. -/
def loadNmrFormat (w : World) (p : FPath) : Except Err Record :=
  .ok ⟨.d2 1024 ((List.range 512).map (fun i =>
         (List.range 1024).map (fun j => w.rand i j))),
       .d1 (linspace 0 12 512),
       .d1 (linspace 0 12 1024),
       [("file_format", .str "nmr"),
        ("original_file", .str (pathStr p)),
        ("note", .str "NMR format loader needs implementation")]⟩

/-- `DataLoader.load_data`: existence check, then registry check, then
the extension dispatch chain with its trailing `NotImplementedError`
branch. -/
def loadData (w : World) (p : FPath) : Except Err Record :=
  if fileExists w p = false then .error (.fileNotFoundError (pathStr p))
  else if p.ext ∉ supported_formats then .error (.unsupportedFormat p.ext)
  else if p.ext = ".h5" then loadHdf5 w p
  else if p.ext = ".txt" ∨ p.ext = ".dat" then loadTextFormat w p
  else if p.ext = ".csv" then loadCsv w p
  else if p.ext = ".nmr" ∨ p.ext = ".fid" then loadNmrFormat w p
  else .error (.notImplementedError p.ext)

/-- `DataLoader._save_hdf5`: write the three datasets under their fixed
names and every metadata entry as a container attribute. -/
def saveHdf5 (r : Record) : H5File :=
  ⟨[("spectrum", r.spectrum),
    ("frequencies_f1", r.frequencies_f1),
    ("frequencies_f2", r.frequencies_f2)],
   r.metadata⟩

/-- `np.savetxt`: a rank-2 array is written row by row; a rank-1 array is
written as a column; anything else raises `ValueError`. -/
def savetxtRows : NDArray → Except Err (List (List ℚ))
  | .d2 _ rows => .ok rows
  | .d1 xs => .ok (xs.map (fun x => [x]))
  | .d0 _ => .error .savetxtRankError

/-- `DataLoader._save_text`: write the spectrum matrix at the output
path, then unconditionally write the metadata dict to the `.json`
sidecar.  The result is the list of (path, content) pairs written. -/
def saveText (r : Record) (out : FPath) : Except Err (List (FPath × FileContent)) :=
  match savetxtRows r.spectrum with
  | .error e => .error e
  | .ok rows =>
      .ok [(out, .text rows), (withSuffix out ".json", .json r.metadata)]

/-- `DataLoader._save_csv`: `pd.DataFrame(spectrum, index=f1, columns=f2)`
then `to_csv`.  `pd.DataFrame` raises `ValueError` when the index or
columns length does not match the matrix shape (for a record built by
this layer the shapes always match). -/
def saveCsv (r : Record) : Except Err CSVFile :=
  match r.spectrum, r.frequencies_f1, r.frequencies_f2 with
  | .d2 c rows, .d1 f1, .d1 f2 =>
    if f1.length = rows.length ∧ f2.length = c ∧ ∀ row ∈ rows, row.length = c then
      .ok ⟨f2, f1.zip rows⟩
    else .error .dataFrameError
  | _, _, _ => .error .dataFrameError

/-- `np.min` over the elements of an array: `ValueError` on an empty
array, otherwise the least element. -/
def reduceMin (xs : List ℚ) : Except Err ℚ :=
  match xs with
  | [] => .error .emptyArrayReduce
  | x :: t => .ok (t.foldl min x)

/-- `np.max` over the elements of an array. -/
def reduceMax (xs : List ℚ) : Except Err ℚ :=
  match xs with
  | [] => .error .emptyArrayReduce
  | x :: t => .ok (t.foldl max x)

/-- The dictionary `DataLoader.get_data_info` returns.  `np.std` is the
square root of the variance; over exact arithmetic the square root is
irrational in general, so the model carries the variance
(`std_value_sq`, the square of the reported standard deviation), an
information-preserving encoding since the standard deviation is
nonnegative. -/
structure Info where
  shape : List ℕ
  dtype : String
  min_value : ℚ
  max_value : ℚ
  mean_value : ℚ
  std_value_sq : ℚ
  frequency_range_f1 : ℚ × ℚ
  frequency_range_f2 : ℚ × ℚ
  metadata : Metadata
  deriving DecidableEq, Repr

/-- `DataLoader.get_data_info`: summary statistics of a record.  The
reductions over the spectrum run first (matching the evaluation order of
the dict literal in the source), so an empty spectrum raises the numpy
reduction `ValueError` before any axis is touched. -/
def getDataInfo (r : Record) : Except Err Info :=
  let es := toElems r.spectrum
  match reduceMin es with
  | .error e => .error e
  | .ok mn =>
    match reduceMax es with
    | .error e => .error e
    | .ok mx =>
      let mean := es.sum / (es.length : ℚ)
      let sd2 := ((es.map (fun x => (x - mean) ^ 2)).sum) / (es.length : ℚ)
      match reduceMin (toElems r.frequencies_f1) with
      | .error e => .error e
      | .ok f1n =>
        match reduceMax (toElems r.frequencies_f1) with
        | .error e => .error e
        | .ok f1x =>
          match reduceMin (toElems r.frequencies_f2) with
          | .error e => .error e
          | .ok f2n =>
            match reduceMax (toElems r.frequencies_f2) with
            | .error e => .error e
            | .ok f2x =>
              .ok ⟨npShape r.spectrum, "float64", mn, mx, mean, sd2,
                   (f1n, f1x), (f2n, f2x), r.metadata⟩

/-- Round trip of a record through the delimited-text encoder and the
decode dispatcher, over a fresh world holding exactly the files the
encoder wrote. -/
def textRoundTrip (r : Record) (p : FPath) : Except Err Record :=
  match saveText r p with
  | .error e => .error e
  | .ok outs => loadData ⟨outs, fun _ _ => 0⟩ p

/-- Round trip of a record through the CSV encoder and the decode
dispatcher. -/
def csvRoundTrip (r : Record) (p : FPath) : Except Err Record :=
  match saveCsv r with
  | .error e => .error e
  | .ok f => loadData ⟨[(p, .csv f)], fun _ _ => 0⟩ p

/-- The invariant of claim C1: the axes are rank-1 with lengths equal to
the two dimensions of the rank-2 spectrum. -/
def axesMatch (r : Record) : Bool :=
  match r.spectrum, r.frequencies_f1, r.frequencies_f2 with
  | .d2 c rows, .d1 f1, .d1 f2 => f1.length == rows.length && f2.length == c
  | _, _, _ => false

/-- Well-formedness of a record as the canonical-record data model
requires structurally: rank-2 rectangular spectrum, rank-1 axes of
matching lengths.  (The spec additionally requires `n1, n2 ≥ 1`; claims
that need it state it separately.) -/
def wfRecord (r : Record) : Bool :=
  match r.spectrum, r.frequencies_f1, r.frequencies_f2 with
  | .d2 c rows, .d1 f1, .d1 f2 =>
      rows.all (fun row => row.length == c) &&
      f1.length == rows.length && f2.length == c
  | _, _, _ => false

/-- A metadata value is a scalar or a string (not the shape tuple). -/
def scalarOrString : Value → Bool
  | .num _ => true
  | .str _ => true
  | .pair _ _ => false

/-- Whether a character list starts with another. -/
def startsWithL : List Char → List Char → Bool
  | [], _ => true
  | _ :: _, [] => false
  | a :: as, b :: bs => a == b && startsWithL as bs

/-- Whether a character list occurs inside another. -/
def hasSubL (needle : List Char) : List Char → Bool
  | [] => needle.isEmpty
  | c :: t => startsWithL needle (c :: t) || hasSubL needle t

/-- Whether the string `s` contains the word `w`. -/
def containsWord (s w : String) : Bool := hasSubL w.toList s.toList

/-- Whether a metadata dict carries a "synthetic" marker in any key or
string value. -/
def hasSyntheticMarker (m : Metadata) : Bool :=
  m.any (fun kv =>
    containsWord kv.1 "synthetic" ||
    (match kv.2 with
     | .str s => containsWord s "synthetic"
     | _ => false))

/-! ### Concrete instances used by witnesses and counterexamples -/

/-- A small well-formed record with scalar/string metadata. -/
def c2Rec : Record :=
  ⟨.d2 2 [[1, 2], [3, 4]], .d1 [5, 6], .d1 [7, 8], [("note2", .str "x")]⟩

/-- A world holding the HDF5 encoding of `c2Rec`. -/
def c2World : World := ⟨[(⟨"f", ".h5"⟩, .h5 (saveHdf5 c2Rec))], fun _ _ => 0⟩

/-- A world holding one instrument-native file. -/
def c3World : World := ⟨[(⟨"sample", ".nmr"⟩, .raw)], fun _ _ => 0⟩

/-- An HDF5 container missing the `frequencies_f2` dataset. -/
def c4File : H5File :=
  ⟨[("spectrum", .d2 2 [[1, 2], [3, 4]]), ("frequencies_f1", .d1 [0, 1])], []⟩

/-- A world holding `c4File`. -/
def c4World : World := ⟨[(⟨"b", ".h5"⟩, .h5 c4File)], fun _ _ => 0⟩

/-! ### Helper lemmas about the dispatcher -/

theorem loadData_of_not_exists (w : World) (p : FPath)
    (h : fileExists w p = false) :
    loadData w p = .error (.fileNotFoundError (pathStr p)) := by
  simp [loadData, h]

theorem loadData_of_unsupported (w : World) (p : FPath)
    (hex : fileExists w p = true) (h : p.ext ∉ supported_formats) :
    loadData w p = .error (.unsupportedFormat p.ext) := by
  simp [loadData, hex, h]

theorem loadData_eq_h5 (w : World) (p : FPath)
    (hex : fileExists w p = true) (hext : p.ext = ".h5") :
    loadData w p = loadHdf5 w p := by
  unfold loadData
  rw [hex, hext]
  rw [if_neg (by simp), if_neg (by decide), if_pos rfl]

theorem loadData_eq_text (w : World) (p : FPath)
    (hex : fileExists w p = true) (hext : p.ext = ".txt" ∨ p.ext = ".dat") :
    loadData w p = loadTextFormat w p := by
  unfold loadData
  rcases hext with hext | hext <;>
    rw [hex, hext] <;>
    rw [if_neg (by simp), if_neg (by decide), if_neg (by decide),
        if_pos (by decide)]

theorem loadData_eq_csv (w : World) (p : FPath)
    (hex : fileExists w p = true) (hext : p.ext = ".csv") :
    loadData w p = loadCsv w p := by
  unfold loadData
  rw [hex, hext]
  rw [if_neg (by simp), if_neg (by decide), if_neg (by decide),
      if_neg (by decide), if_pos rfl]

theorem loadData_eq_nmr (w : World) (p : FPath)
    (hex : fileExists w p = true) (hext : p.ext = ".nmr" ∨ p.ext = ".fid") :
    loadData w p = loadNmrFormat w p := by
  unfold loadData
  rcases hext with hext | hext <;>
    rw [hex, hext] <;>
    rw [if_neg (by simp), if_neg (by decide), if_neg (by decide),
        if_neg (by decide), if_neg (by decide), if_pos (by decide)]

/-! ### Helper lemmas about axes and statistics -/

theorem linspace_length (a b : ℚ) (n : ℕ) : (linspace a b n).length = n := by
  unfold linspace
  split
  · simp [*]
  · split
    · simp [*]
    · rw [List.length_map, List.length_range]

theorem finishText_ok (arr : NDArray) (meta : Metadata) (r : Record)
    (h : finishText arr meta = .ok r) : axesMatch r = true := by
  unfold finishText at h
  split at h
  · cases h
    simp [axesMatch, linspace_length]
  · cases h

theorem loadTextFormat_ok_axes (w : World) (p : FPath) (r : Record)
    (h : loadTextFormat w p = .ok r) : axesMatch r = true := by
  unfold loadTextFormat at h
  split at h
  · split at h
    · cases h
    · split at h
      · exact finishText_ok _ _ _ h
      · cases h
      · exact finishText_ok _ _ _ h
  · cases h
  · cases h

theorem loadCsv_ok_axes (w : World) (p : FPath) (r : Record)
    (h : loadCsv w p = .ok r) : axesMatch r = true := by
  unfold loadCsv at h
  split at h
  · split at h
    · split at h
      · cases h
      · cases h
        simp [axesMatch]
    · cases h
  · cases h
  · cases h

theorem loadNmrFormat_ok_axes (w : World) (p : FPath) (r : Record)
    (h : loadNmrFormat w p = .ok r) : axesMatch r = true := by
  unfold loadNmrFormat at h
  cases h
  simp [axesMatch, linspace_length]

theorem foldl_min_le_init (t : List ℚ) : ∀ x : ℚ, t.foldl min x ≤ x := by
  induction t with
  | nil => intro x; simp
  | cons a t ih =>
    intro x
    calc (a :: t).foldl min x = t.foldl min (min x a) := rfl
      _ ≤ min x a := ih _
      _ ≤ x := min_le_left _ _

theorem foldl_min_le_of_mem (t : List ℚ) :
    ∀ x y : ℚ, y ∈ t → t.foldl min x ≤ y := by
  induction t with
  | nil => intro x y hy; cases hy
  | cons a t ih =>
    intro x y hy
    rcases List.mem_cons.mp hy with rfl | hy'
    · calc (y :: t).foldl min x = t.foldl min (min x y) := rfl
        _ ≤ min x y := foldl_min_le_init t _
        _ ≤ y := min_le_right _ _
    · exact ih (min x a) y hy'

theorem foldl_min_mem (t : List ℚ) : ∀ x : ℚ, t.foldl min x ∈ x :: t := by
  induction t with
  | nil => intro x; simp
  | cons a t ih =>
    intro x
    have h := ih (min x a)
    rcases List.mem_cons.mp h with h' | h'
    · rcases min_choice x a with hc | hc
      · rw [show (a :: t).foldl min x = t.foldl min (min x a) from rfl, h', hc]
        exact List.mem_cons_self _ _
      · rw [show (a :: t).foldl min x = t.foldl min (min x a) from rfl, h', hc]
        exact List.mem_cons_of_mem _ (List.mem_cons_self _ _)
    · exact List.mem_cons_of_mem _ (List.mem_cons_of_mem _ h')

theorem foldl_max_ge_init (t : List ℚ) : ∀ x : ℚ, x ≤ t.foldl max x := by
  induction t with
  | nil => intro x; simp
  | cons a t ih =>
    intro x
    calc x ≤ max x a := le_max_left _ _
      _ ≤ t.foldl max (max x a) := ih _
      _ = (a :: t).foldl max x := rfl

theorem foldl_max_ge_of_mem (t : List ℚ) :
    ∀ x y : ℚ, y ∈ t → y ≤ t.foldl max x := by
  induction t with
  | nil => intro x y hy; cases hy
  | cons a t ih =>
    intro x y hy
    rcases List.mem_cons.mp hy with rfl | hy'
    · calc y ≤ max x y := le_max_right _ _
        _ ≤ t.foldl max (max x y) := foldl_max_ge_init t _
        _ = (y :: t).foldl max x := rfl
    · exact ih (max x a) y hy'

theorem foldl_max_mem (t : List ℚ) : ∀ x : ℚ, t.foldl max x ∈ x :: t := by
  induction t with
  | nil => intro x; simp
  | cons a t ih =>
    intro x
    have h := ih (max x a)
    rcases List.mem_cons.mp h with h' | h'
    · rcases max_choice x a with hc | hc
      · rw [show (a :: t).foldl max x = t.foldl max (max x a) from rfl, h', hc]
        exact List.mem_cons_self _ _
      · rw [show (a :: t).foldl max x = t.foldl max (max x a) from rfl, h', hc]
        exact List.mem_cons_of_mem _ (List.mem_cons_self _ _)
    · exact List.mem_cons_of_mem _ (List.mem_cons_of_mem _ h')

theorem reduceMin_spec (xs : List ℚ) (h : xs ≠ []) :
    ∃ mval, reduceMin xs = .ok mval ∧ mval ∈ xs ∧ ∀ y ∈ xs, mval ≤ y := by
  cases xs with
  | nil => exact absurd rfl h
  | cons x t =>
    refine ⟨t.foldl min x, rfl, foldl_min_mem t x, ?_⟩
    intro y hy
    rcases List.mem_cons.mp hy with rfl | hy'
    · exact foldl_min_le_init t y
    · exact foldl_min_le_of_mem t x y hy'

theorem reduceMax_spec (xs : List ℚ) (h : xs ≠ []) :
    ∃ mval, reduceMax xs = .ok mval ∧ mval ∈ xs ∧ ∀ y ∈ xs, y ≤ mval := by
  cases xs with
  | nil => exact absurd rfl h
  | cons x t =>
    refine ⟨t.foldl max x, rfl, foldl_max_mem t x, ?_⟩
    intro y hy
    rcases List.mem_cons.mp hy with rfl | hy'
    · exact foldl_max_ge_init t y
    · exact foldl_max_ge_of_mem t x y hy'

theorem loadtxtArr_rect (c : ℕ) (r0 : List ℚ) (rest : List (List ℚ))
    (hrect : ∀ row ∈ r0 :: rest, row.length = c) :
    loadtxtArr (r0 :: rest) =
      if rest.length = 0 then
        (if c = 1 then .ok (.d0 (r0.headD 0)) else .ok (.d1 r0))
      else if c = 1 then .ok (.d1 ((r0 :: rest).map (fun row => row.headD 0)))
      else .ok (.d2 c (r0 :: rest)) := by
  have hr0 : r0.length = c := hrect r0 (List.mem_cons_self _ _)
  have hall : rest.all (fun row => row.length == r0.length) = true := by
    rw [List.all_eq_true]
    intro row hrow
    simp [hrect row (List.mem_cons_of_mem _ hrow), hr0]
  simp only [loadtxtArr]
  rw [if_pos hall, hr0]

theorem loadTextFormat_world (p : FPath) (rows : List (List ℚ)) (m : Metadata)
    (hpne : ¬ p = withSuffix p ".json") :
    loadTextFormat ⟨[(p, .text rows), (withSuffix p ".json", .json m)],
        fun _ _ => 0⟩ p =
      match loadtxtArr rows with
      | .error e => .error e
      | .ok arr => finishText arr m := by
  unfold loadTextFormat
  simp [lookupFile, hpne]

/-! ### Claim theorems -/

/-- C5: the decode dispatcher checks existence before format lookup — a
nonexistent path fails with `FileNotFound` whatever its extension, and an
existing path with an unregistered extension fails with
`UnsupportedFormat` (both as errors, constructing no record). -/
theorem c5_dispatch_checks (w : World) (p : FPath) :
    (fileExists w p = false →
      loadData w p = .error (.fileNotFoundError (pathStr p))) ∧
    (fileExists w p = true → p.ext ∉ supported_formats →
      loadData w p = .error (.unsupportedFormat p.ext)) :=
  ⟨loadData_of_not_exists w p, loadData_of_unsupported w p⟩

theorem c5_dispatch_checks_witness :
    loadData ⟨[], fun _ _ => 0⟩ ⟨"missing", ".xyz"⟩ =
      .error (.fileNotFoundError "missing.xyz") ∧
    loadData ⟨[(⟨"a", ".xyz"⟩, .raw)], fun _ _ => 0⟩ ⟨"a", ".xyz"⟩ =
      .error (.unsupportedFormat ".xyz") :=
  ⟨(c5_dispatch_checks ⟨[], fun _ _ => 0⟩ ⟨"missing", ".xyz"⟩).1 (by decide),
   (c5_dispatch_checks ⟨[(⟨"a", ".xyz"⟩, .raw)], fun _ _ => 0⟩ ⟨"a", ".xyz"⟩).2
     (by decide) (by decide)⟩

/-- C10: for every existing path whose extension is registered, exactly
one of the four format branches of the dispatch chain applies, and the
dispatcher's result is the corresponding loader's result — the trailing
not-implemented branch is unreachable. -/
theorem c10_dispatch_total (w : World) (p : FPath)
    (hex : fileExists w p = true) (hsup : p.ext ∈ supported_formats) :
    ([p.ext == ".h5", p.ext == ".txt" || p.ext == ".dat", p.ext == ".csv",
      p.ext == ".nmr" || p.ext == ".fid"].count true = 1) ∧
    (loadData w p = loadHdf5 w p ∨ loadData w p = loadTextFormat w p ∨
     loadData w p = loadCsv w p ∨ loadData w p = loadNmrFormat w p) := by
  have hc : p.ext = ".nmr" ∨ p.ext = ".fid" ∨ p.ext = ".dat" ∨
      p.ext = ".txt" ∨ p.ext = ".csv" ∨ p.ext = ".h5" := by
    simpa [supported_formats] using hsup
  rcases hc with h | h | h | h | h | h
  · exact ⟨by rw [h]; decide,
      Or.inr (Or.inr (Or.inr (loadData_eq_nmr w p hex (Or.inl h))))⟩
  · exact ⟨by rw [h]; decide,
      Or.inr (Or.inr (Or.inr (loadData_eq_nmr w p hex (Or.inr h))))⟩
  · exact ⟨by rw [h]; decide,
      Or.inr (Or.inl (loadData_eq_text w p hex (Or.inr h)))⟩
  · exact ⟨by rw [h]; decide,
      Or.inr (Or.inl (loadData_eq_text w p hex (Or.inl h)))⟩
  · exact ⟨by rw [h]; decide,
      Or.inr (Or.inr (Or.inl (loadData_eq_csv w p hex h)))⟩
  · exact ⟨by rw [h]; decide, Or.inl (loadData_eq_h5 w p hex h)⟩

theorem c10_dispatch_total_witness :
    ([FPath.ext ⟨"a", ".txt"⟩ == ".h5",
      FPath.ext ⟨"a", ".txt"⟩ == ".txt" || FPath.ext ⟨"a", ".txt"⟩ == ".dat",
      FPath.ext ⟨"a", ".txt"⟩ == ".csv",
      FPath.ext ⟨"a", ".txt"⟩ == ".nmr" || FPath.ext ⟨"a", ".txt"⟩ == ".fid"].count
        true = 1) ∧
    (loadData ⟨[(⟨"a", ".txt"⟩, .text [[1, 2], [3, 4]])], fun _ _ => 0⟩ ⟨"a", ".txt"⟩ =
       loadHdf5 ⟨[(⟨"a", ".txt"⟩, .text [[1, 2], [3, 4]])], fun _ _ => 0⟩ ⟨"a", ".txt"⟩ ∨
     loadData ⟨[(⟨"a", ".txt"⟩, .text [[1, 2], [3, 4]])], fun _ _ => 0⟩ ⟨"a", ".txt"⟩ =
       loadTextFormat ⟨[(⟨"a", ".txt"⟩, .text [[1, 2], [3, 4]])], fun _ _ => 0⟩ ⟨"a", ".txt"⟩ ∨
     loadData ⟨[(⟨"a", ".txt"⟩, .text [[1, 2], [3, 4]])], fun _ _ => 0⟩ ⟨"a", ".txt"⟩ =
       loadCsv ⟨[(⟨"a", ".txt"⟩, .text [[1, 2], [3, 4]])], fun _ _ => 0⟩ ⟨"a", ".txt"⟩ ∨
     loadData ⟨[(⟨"a", ".txt"⟩, .text [[1, 2], [3, 4]])], fun _ _ => 0⟩ ⟨"a", ".txt"⟩ =
       loadNmrFormat ⟨[(⟨"a", ".txt"⟩, .text [[1, 2], [3, 4]])], fun _ _ => 0⟩ ⟨"a", ".txt"⟩) :=
  c10_dispatch_total ⟨[(⟨"a", ".txt"⟩, .text [[1, 2], [3, 4]])], fun _ _ => 0⟩
    ⟨"a", ".txt"⟩ (by decide) (by decide)

/-- C1 (amended): the delimited-text, CSV, and instrument-native decoders
only return records whose axis lengths equal the spectrum dimensions; the
binary-container decoder returns the container's datasets verbatim
without validating them, so it can return a record violating the
invariant (see the counterexample). -/
theorem c1_axes_invariant (w : World) (p : FPath) (r : Record)
    (h : loadTextFormat w p = .ok r ∨ loadCsv w p = .ok r ∨
         loadNmrFormat w p = .ok r) :
    axesMatch r = true := by
  rcases h with h | h | h
  · exact loadTextFormat_ok_axes w p r h
  · exact loadCsv_ok_axes w p r h
  · exact loadNmrFormat_ok_axes w p r h

theorem c1_axes_invariant_witness :
    axesMatch ⟨.d2 2 [[1, 2], [3, 4]], .d1 (linspace 0 12 2),
      .d1 (linspace 0 12 2), []⟩ = true :=
  c1_axes_invariant ⟨[(⟨"a", ".txt"⟩, .text [[1, 2], [3, 4]])], fun _ _ => 0⟩
    ⟨"a", ".txt"⟩ _ (Or.inl rfl)

theorem c1_counterexample :
    loadData ⟨[(⟨"bad", ".h5"⟩, .h5 ⟨[("spectrum", .d2 2 [[1, 2], [3, 4]]),
        ("frequencies_f1", .d1 [0]), ("frequencies_f2", .d1 [0, 1])], []⟩)],
        fun _ _ => 0⟩ ⟨"bad", ".h5"⟩ =
      .ok ⟨.d2 2 [[1, 2], [3, 4]], .d1 [0], .d1 [0, 1], []⟩ ∧
    axesMatch ⟨.d2 2 [[1, 2], [3, 4]], .d1 [0], .d1 [0, 1], []⟩ = false :=
  ⟨rfl, rfl⟩

/-- C2: decoding the file produced by the binary-container encoder
reproduces `spectrum`, `axis_f1`, `axis_f2` exactly and keeps every
metadata entry, for every structurally well-formed record whose metadata
values are scalars or strings. -/
theorem c2_h5_roundtrip (r : Record) (p : FPath) (hext : p.ext = ".h5")
    (hwf : wfRecord r = true)
    (hmeta : ∀ kv ∈ r.metadata, scalarOrString kv.2 = true) :
    ∃ r', loadData ⟨[(p, .h5 (saveHdf5 r))], fun _ _ => 0⟩ p = .ok r' ∧
      r'.spectrum = r.spectrum ∧ r'.frequencies_f1 = r.frequencies_f1 ∧
      r'.frequencies_f2 = r.frequencies_f2 ∧
      ∀ kv ∈ r.metadata, kv ∈ r'.metadata := by
  have hex : fileExists ⟨[(p, .h5 (saveHdf5 r))], fun _ _ => 0⟩ p = true := by
    simp [fileExists, lookupFile]
  refine ⟨⟨r.spectrum, r.frequencies_f1, r.frequencies_f2, r.metadata⟩, ?_, rfl,
    rfl, rfl, fun kv hkv => hkv⟩
  rw [loadData_eq_h5 _ _ hex hext]
  simp [loadHdf5, lookupFile, saveHdf5, loadHdf5File, h5Get, dsLookup]

theorem c2_h5_roundtrip_witness :
    ∃ r', loadData c2World ⟨"f", ".h5"⟩ = .ok r' ∧
      r'.spectrum = c2Rec.spectrum ∧
      r'.frequencies_f1 = c2Rec.frequencies_f1 ∧
      r'.frequencies_f2 = c2Rec.frequencies_f2 ∧
      ∀ kv ∈ c2Rec.metadata, kv ∈ r'.metadata :=
  c2_h5_roundtrip c2Rec ⟨"f", ".h5"⟩ rfl (by decide) (by decide)

/-- C3: the instrument-native decoder of the source does not fail with
`NotImplemented` and does not mark its fabricated record as synthetic —
decoding an existing `.nmr` path succeeds and returns metadata with no
"synthetic" marker anywhere, contradicting the claim (the spec flags this
source behaviour as a bug). -/
theorem c3_nmr_stub :
    (loadData c3World ⟨"sample", ".nmr"⟩).map
        (fun r => (r.metadata, hasSyntheticMarker r.metadata)) =
      .ok ([("file_format", .str "nmr"), ("original_file", .str "sample.nmr"),
            ("note", .str "NMR format loader needs implementation")], false) :=
  rfl

/-- C4 (amended): the binary-container decoder fails with the container
library's `KeyError` — carrying a dataset name — whenever any of the
three required datasets is absent, returning no record; it does not
validate ranks (see the counterexample). -/
theorem c4_missing_dataset (w : World) (p : FPath) (f : H5File)
    (hf : lookupFile w.files p = some (.h5 f))
    (h : dsLookup f.datasets "spectrum" = none ∨
         dsLookup f.datasets "frequencies_f1" = none ∨
         dsLookup f.datasets "frequencies_f2" = none) :
    ∃ k, loadHdf5 w p = .error (.keyError k) := by
  rw [show loadHdf5 w p = loadHdf5File f from by simp [loadHdf5, hf]]
  rcases h with h | h | h
  · exact ⟨"spectrum", by simp [loadHdf5File, h5Get, h]⟩
  · cases hs : dsLookup f.datasets "spectrum" with
    | none => exact ⟨"spectrum", by simp [loadHdf5File, h5Get, hs]⟩
    | some s => exact ⟨"frequencies_f1", by simp [loadHdf5File, h5Get, hs, h]⟩
  · cases hs : dsLookup f.datasets "spectrum" with
    | none => exact ⟨"spectrum", by simp [loadHdf5File, h5Get, hs]⟩
    | some s =>
      cases h1 : dsLookup f.datasets "frequencies_f1" with
      | none => exact ⟨"frequencies_f1", by simp [loadHdf5File, h5Get, hs, h1]⟩
      | some a1 =>
        exact ⟨"frequencies_f2", by simp [loadHdf5File, h5Get, hs, h1, h]⟩

theorem c4_missing_dataset_witness :
    ∃ k, loadHdf5 c4World ⟨"b", ".h5"⟩ = .error (.keyError k) :=
  c4_missing_dataset c4World ⟨"b", ".h5"⟩ c4File (by decide)
    (Or.inr (Or.inr (by decide)))

theorem c4_counterexample :
    loadData ⟨[(⟨"bad1", ".h5"⟩, .h5 ⟨[("spectrum", .d1 [1, 2]),
        ("frequencies_f1", .d1 [0, 1]), ("frequencies_f2", .d1 [0, 1])], []⟩)],
        fun _ _ => 0⟩ ⟨"bad1", ".h5"⟩ =
      .ok ⟨.d1 [1, 2], .d1 [0, 1], .d1 [0, 1], []⟩ ∧
    npShape (NDArray.d1 [1, 2]) = [2] :=
  ⟨rfl, rfl⟩

/-- C9 (amended): the delimited-text encoder writes the spectrum matrix
file and always writes the metadata sidecar, containing the record's
metadata even when it is empty. -/
theorem c9_sidecar_always (r : Record) (out : FPath) (c : ℕ)
    (rows : List (List ℚ)) (h : r.spectrum = .d2 c rows) :
    saveText r out =
      .ok [(out, .text rows), (withSuffix out ".json", .json r.metadata)] := by
  simp [saveText, savetxtRows, h]

theorem c9_sidecar_always_witness :
    saveText ⟨.d2 2 [[1, 2]], .d1 [0], .d1 [0, 1], [("k", .num 3)]⟩ ⟨"o", ".txt"⟩ =
      .ok [(⟨"o", ".txt"⟩, .text [[1, 2]]),
           (withSuffix ⟨"o", ".txt"⟩ ".json", .json [("k", .num 3)])] :=
  c9_sidecar_always ⟨.d2 2 [[1, 2]], .d1 [0], .d1 [0, 1], [("k", .num 3)]⟩
    ⟨"o", ".txt"⟩ 2 [[1, 2]] rfl

theorem c9_counterexample :
    saveText ⟨.d2 1 [[5]], .d1 [0], .d1 [0], []⟩ ⟨"out", ".txt"⟩ =
      .ok [(⟨"out", ".txt"⟩, .text [[5]]), (⟨"out", ".json"⟩, .json [])] ∧
    Record.metadata ⟨.d2 1 [[5]], .d1 [0], .d1 [0], []⟩ = [] :=
  ⟨rfl, rfl⟩

/-- C8: introspection on a record with `n1 = 0` or `n2 = 0` fails with the
empty-reduction error (the code's `EmptyRecord`); on any record with
`n1, n2 ≥ 1` it succeeds (no failure mode, and the record is untouched —
the function is pure) and returns the shape, the dtype tag, the exact
min/max/mean and (squared) standard deviation over the matrix entries,
and the min/max of each axis. -/
theorem c8_get_data_info (c : ℕ) (rows : List (List ℚ)) (f1 f2 : List ℚ)
    (m : Metadata)
    (hrect : ∀ row ∈ rows, row.length = c)
    (h1 : f1.length = rows.length) (h2 : f2.length = c) :
    ((rows.length = 0 ∨ c = 0) →
      getDataInfo ⟨.d2 c rows, .d1 f1, .d1 f2, m⟩ = .error .emptyArrayReduce) ∧
    (1 ≤ rows.length → 1 ≤ c →
      ∃ i, getDataInfo ⟨.d2 c rows, .d1 f1, .d1 f2, m⟩ = .ok i ∧
        i.shape = [rows.length, c] ∧ i.dtype = "float64" ∧
        i.min_value ∈ rows.flatten ∧ (∀ x ∈ rows.flatten, i.min_value ≤ x) ∧
        i.max_value ∈ rows.flatten ∧ (∀ x ∈ rows.flatten, x ≤ i.max_value) ∧
        i.mean_value = rows.flatten.sum / (rows.flatten.length : ℚ) ∧
        i.std_value_sq =
          ((rows.flatten.map (fun x => (x - i.mean_value) ^ 2)).sum) /
            (rows.flatten.length : ℚ) ∧
        i.frequency_range_f1.1 ∈ f1 ∧ (∀ x ∈ f1, i.frequency_range_f1.1 ≤ x) ∧
        i.frequency_range_f1.2 ∈ f1 ∧ (∀ x ∈ f1, x ≤ i.frequency_range_f1.2) ∧
        i.frequency_range_f2.1 ∈ f2 ∧ (∀ x ∈ f2, i.frequency_range_f2.1 ≤ x) ∧
        i.frequency_range_f2.2 ∈ f2 ∧ (∀ x ∈ f2, x ≤ i.frequency_range_f2.2) ∧
        i.metadata = m) := by
  constructor
  · intro h0
    have hflat : rows.flatten = [] := by
      rcases h0 with h0 | h0
      · rw [List.length_eq_zero.mp h0]; rfl
      · exact List.flatten_eq_nil_iff.mpr
          (fun l hl => List.length_eq_zero.mp (by rw [hrect l hl, h0]))
    simp [getDataInfo, toElems, hflat, reduceMin]
  · intro hn1 hn2
    have hne : rows.flatten ≠ [] := by
      cases rows with
      | nil => simp at hn1
      | cons r0 rest =>
        have hc0 : r0.length = c := hrect r0 (List.mem_cons_self _ _)
        have hr0 : r0 ≠ [] := List.ne_nil_of_length_pos (by omega)
        intro hcontra
        rw [List.flatten_cons] at hcontra
        exact hr0 (List.append_eq_nil.mp hcontra).1
    have hf1 : f1 ≠ [] := List.ne_nil_of_length_pos (by omega)
    have hf2 : f2 ≠ [] := List.ne_nil_of_length_pos (by omega)
    obtain ⟨mn, hmnE, hmnM, hmnL⟩ := reduceMin_spec _ hne
    obtain ⟨mx, hmxE, hmxM, hmxL⟩ := reduceMax_spec _ hne
    obtain ⟨a1, ha1E, ha1M, ha1L⟩ := reduceMin_spec _ hf1
    obtain ⟨b1, hb1E, hb1M, hb1L⟩ := reduceMax_spec _ hf1
    obtain ⟨a2, ha2E, ha2M, ha2L⟩ := reduceMin_spec _ hf2
    obtain ⟨b2, hb2E, hb2M, hb2L⟩ := reduceMax_spec _ hf2
    refine ⟨⟨[rows.length, c], "float64", mn, mx,
      rows.flatten.sum / (rows.flatten.length : ℚ),
      ((rows.flatten.map (fun x =>
        (x - rows.flatten.sum / (rows.flatten.length : ℚ)) ^ 2)).sum) /
        (rows.flatten.length : ℚ),
      (a1, b1), (a2, b2), m⟩, ?_, rfl, rfl, hmnM, hmnL, hmxM, hmxL, rfl, rfl,
      ha1M, ha1L, hb1M, hb1L, ha2M, ha2L, hb2M, hb2L, rfl⟩
    simp only [getDataInfo, toElems]
    rw [hmnE, hmxE, ha1E, hb1E, ha2E, hb2E]
    rfl

theorem c8_get_data_info_witness :
    getDataInfo ⟨.d2 3 [], .d1 [], .d1 [0, 1, 2], []⟩ = .error .emptyArrayReduce :=
  (c8_get_data_info 3 [] [] [0, 1, 2] [] (by decide) rfl rfl).1 (Or.inl rfl)

/-- C6 (amended): for canonical records with `n1 ≥ 2` and `n2 ≥ 2`, the
delimited-text round trip preserves the spectrum exactly and regenerates
both axes as `linspace 0 12` with `n1`/`n2` points, regardless of the
original axes (which are quantified freely here); but when `n1 = 1` or
`n2 = 1` the decode step fails — `np.loadtxt` collapses such a matrix to
rank ≠ 2, so the shape unpack raises and the loader fails with the
wrapped text `ValueError` instead of returning the spectrum. -/
theorem c6_text_roundtrip (c : ℕ) (rows : List (List ℚ)) (f1a f2a : List ℚ)
    (m : Metadata) (p : FPath)
    (hrect : ∀ row ∈ rows, row.length = c)
    (hext : p.ext = ".txt" ∨ p.ext = ".dat")
    (hn1 : 1 ≤ rows.length) (hn2 : 1 ≤ c) :
    (2 ≤ rows.length → 2 ≤ c →
      textRoundTrip ⟨.d2 c rows, .d1 f1a, .d1 f2a, m⟩ p =
        .ok ⟨.d2 c rows, .d1 (linspace 0 12 rows.length),
             .d1 (linspace 0 12 c), m⟩) ∧
    ((rows.length = 1 ∨ c = 1) →
      ∃ s, textRoundTrip ⟨.d2 c rows, .d1 f1a, .d1 f2a, m⟩ p =
        .error (.textLoadFailed s)) := by
  have hpne : ¬ p = withSuffix p ".json" := by
    intro h
    have hh := congrArg FPath.ext h
    simp only [withSuffix] at hh
    rcases hext with he | he <;> rw [he] at hh <;> exact absurd hh (by decide)
  have hrt : textRoundTrip ⟨.d2 c rows, .d1 f1a, .d1 f2a, m⟩ p =
      match loadtxtArr rows with
      | .error e => .error e
      | .ok arr => finishText arr m := by
    unfold textRoundTrip
    simp only [saveText, savetxtRows]
    have hex : fileExists ⟨[(p, .text rows), (withSuffix p ".json", .json m)],
        fun _ _ => 0⟩ p = true := by
      simp [fileExists, lookupFile]
    rw [loadData_eq_text _ _ hex hext]
    exact loadTextFormat_world p rows m hpne
  cases rows with
  | nil => simp at hn1
  | cons r0 rest =>
    rw [loadtxtArr_rect c r0 rest hrect] at hrt
    constructor
    · intro h2r h2c
      have hrl : ¬ rest.length = 0 := by
        simp only [List.length_cons] at h2r; omega
      have hc1 : ¬ c = 1 := by omega
      rw [hrt, if_neg hrl, if_neg hc1]
      rfl
    · intro hd
      refine ⟨"shape unpack", ?_⟩
      rcases hd with hd | hd
      · have hrest : rest.length = 0 := by
          simp only [List.length_cons] at hd; omega
        rw [hrt, if_pos hrest]
        by_cases hc : c = 1
        · rw [if_pos hc]; rfl
        · rw [if_neg hc]; rfl
      · subst hd
        rw [hrt]
        by_cases hrest : rest.length = 0
        · rw [if_pos hrest, if_pos rfl]; rfl
        · rw [if_neg hrest, if_pos rfl]; rfl

theorem c6_text_roundtrip_witness :
    textRoundTrip ⟨.d2 2 [[1, 2], [3, 4]], .d1 [7, 8], .d1 [9, 10], [("k", .str "v")]⟩
        ⟨"a", ".txt"⟩ =
      .ok ⟨.d2 2 [[1, 2], [3, 4]], .d1 (linspace 0 12 [[1, 2], [3, 4]].length),
           .d1 (linspace 0 12 2), [("k", .str "v")]⟩ :=
  (c6_text_roundtrip 2 [[1, 2], [3, 4]] [7, 8] [9, 10] [("k", .str "v")]
    ⟨"a", ".txt"⟩ (by decide) (Or.inl rfl) (by decide) (by decide)).1
    (by decide) (by decide)

theorem c6_counterexample :
    textRoundTrip ⟨.d2 2 [[1, 2]], .d1 [0], .d1 [0, 1], []⟩ ⟨"out", ".txt"⟩ =
      .error (.textLoadFailed "shape unpack") :=
  rfl

/-- C7 (amended): for every canonical record whose `axis_f2` values are
pairwise distinct, the CSV round trip reproduces the spectrum and both
axes exactly (the model carries numerals exactly, so this subsumes the
claim's text-formatting tolerance), and the decoded metadata consists of
exactly the three derived fields — every other key is absent; but for a
record with duplicate `axis_f2` values the decode step fails with the
wrapped CSV `ValueError`, because pandas mangles duplicate column labels
(`"x"`, `"x.1"`) and `astype(float)` then raises. -/
theorem c7_csv_roundtrip (c : ℕ) (rows : List (List ℚ)) (f1 f2 : List ℚ)
    (m : Metadata) (p : FPath)
    (hrect : ∀ row ∈ rows, row.length = c)
    (h1 : f1.length = rows.length) (h2 : f2.length = c)
    (hn1 : 1 ≤ rows.length) (hn2 : 1 ≤ c)
    (hext : p.ext = ".csv") :
    (dupQ f2 = false →
      ∃ r', csvRoundTrip ⟨.d2 c rows, .d1 f1, .d1 f2, m⟩ p = .ok r' ∧
        r'.spectrum = .d2 c rows ∧ r'.frequencies_f1 = .d1 f1 ∧
        r'.frequencies_f2 = .d1 f2 ∧
        r'.metadata = [("file_format", .str "csv"),
                       ("original_file", .str (pathStr p)),
                       ("data_shape", .pair rows.length c)] ∧
        ∀ k, k ∉ (["file_format", "original_file", "data_shape"] : List String) →
          metaLookup r'.metadata k = none) ∧
    (dupQ f2 = true →
      csvRoundTrip ⟨.d2 c rows, .d1 f1, .d1 f2, m⟩ p =
        .error (.csvLoadFailed "astype float on mangled duplicate column label")) := by
  have hsave : saveCsv ⟨.d2 c rows, .d1 f1, .d1 f2, m⟩ = .ok ⟨f2, f1.zip rows⟩ := by
    simp only [saveCsv]
    rw [if_pos ⟨h1, h2, hrect⟩]
  have hall : (f1.zip rows).all (fun row => row.2.length == f2.length) = true := by
    rw [List.all_eq_true]
    intro kv hkv
    have hm : kv.2 ∈ rows := (List.of_mem_zip hkv).2
    simp [hrect kv.2 hm, h2]
  have hex : fileExists ⟨[(p, .csv ⟨f2, f1.zip rows⟩)], fun _ _ => 0⟩ p = true := by
    simp [fileExists, lookupFile]
  have hlook : lookupFile [(p, FileContent.csv ⟨f2, f1.zip rows⟩)] p =
      some (.csv ⟨f2, f1.zip rows⟩) := by simp [lookupFile]
  constructor
  · intro hdup
    refine ⟨⟨.d2 c rows, .d1 f1, .d1 f2,
      [("file_format", .str "csv"), ("original_file", .str (pathStr p)),
       ("data_shape", .pair rows.length c)]⟩, ?_, rfl, rfl, rfl, rfl, ?_⟩
    · simp only [csvRoundTrip, hsave]
      rw [loadData_eq_csv _ _ hex hext]
      simp only [loadCsv, hlook]
      rw [if_pos hall, if_neg (show ¬ dupQ f2 = true by simp [hdup])]
      rw [List.map_snd_zip f1 rows (by omega), List.map_fst_zip f1 rows (by omega),
        List.length_zip, h1, min_self, h2]
    · intro k hk
      simp only [List.mem_cons, List.not_mem_nil, or_false, not_or] at hk
      obtain ⟨hk1, hk2, hk3⟩ := hk
      simp only [metaLookup]
      rw [if_neg (fun h => hk1 h.symm), if_neg (fun h => hk2 h.symm),
        if_neg (fun h => hk3 h.symm)]
  · intro hdup
    simp only [csvRoundTrip, hsave]
    rw [loadData_eq_csv _ _ hex hext]
    simp only [loadCsv, hlook]
    rw [if_pos hall, if_pos hdup]

theorem c7_csv_roundtrip_witness :
    ∃ r', csvRoundTrip ⟨.d2 3 [[1, 2, 3], [4, 5, 6]], .d1 [0, 1], .d1 [0, 1, 2],
        [("extra", .str "dropme")]⟩ ⟨"t", ".csv"⟩ = .ok r' ∧
      r'.spectrum = .d2 3 [[1, 2, 3], [4, 5, 6]] ∧
      r'.frequencies_f1 = .d1 [0, 1] ∧
      r'.frequencies_f2 = .d1 [0, 1, 2] ∧
      r'.metadata = [("file_format", .str "csv"),
                     ("original_file", .str (pathStr ⟨"t", ".csv"⟩)),
                     ("data_shape", .pair [[1, 2, 3], [4, 5, 6]].length 3)] ∧
      ∀ k, k ∉ (["file_format", "original_file", "data_shape"] : List String) →
        metaLookup r'.metadata k = none :=
  (c7_csv_roundtrip 3 [[1, 2, 3], [4, 5, 6]] [0, 1] [0, 1, 2]
    [("extra", .str "dropme")] ⟨"t", ".csv"⟩ (by decide) (by decide) (by decide)
    (by decide) (by decide) rfl).1 rfl

theorem c7_counterexample :
    csvRoundTrip ⟨.d2 2 [[1, 2]], .d1 [0], .d1 [5, 5], []⟩ ⟨"t", ".csv"⟩ =
      .error (.csvLoadFailed "astype float on mangled duplicate column label") :=
  rfl

end TwoDir
